import Mathlib

/-!
Verification development for the bcrypt-cache repository.

The repository consists of a caching core (`bcrypt-cache.js`), an
in-process backend (`lib/memory-cache.js`), a networked Redis backend
(`lib/redis-cache.js`), a digest utility (`lib/md5.js`) and glue for the
slow bcrypt primitive (`lib/bcrypt.js`).

Modelling conventions:
  * Promises that may reject are modelled with `Except CacheError`.
  * A JS value that may be `undefined` is modelled with `Option`.
  * Stateful backends are modelled by explicit state passing: each
    backend operation maps a state to a (result, new state) pair.
  * `Date.now()` is passed in explicitly as a `Nat` parameter `now`.
  * The slow bcrypt primitive is external to the repository and is
    passed in as a function parameter `slow : String → String →
    Except CacheError Bool` (argument order: plain value, then hash,
    matching `bcrypt.compare(value, hash)`).
-/

/-- Error carried by a rejected promise. -/
structure CacheError where
  msg : String
deriving DecidableEq, Repr

/-- Character for one hex digit (`0..9a..f`). -/
def hexDigit (n : Nat) : Char :=
  if n < 10 then Char.ofNat (48 + n) else Char.ofNat (87 + n)

/-- Fixed-width big-endian hex rendering: exactly `d` characters. -/
def hexChars : Nat → Nat → List Char
  | 0, _ => []
  | d + 1, n => hexDigit (n / 16 ^ d % 16) :: hexChars d n

/-- One step of a 64-bit rolling accumulator over the characters of a string. -/
def mixStep (a : Nat) (c : Char) : Nat :=
  (a * 131 + c.toNat + 17) % 2 ^ 64

/-- Modelled from the spec: the Digest Utility (`lib/md5.js` is not under
`src/`; only its callers are). The spec describes it as a deterministic,
fixed-length, non-cryptographic fingerprint of an arbitrary string, used
to derive cache keys and, in the in-process backend, as a cheap
comparison value; its output is 32 hex characters (the in-process
backend dispatches on `hash.length === 32`). It is modelled here as a
deterministic 32-hex-character fingerprint built from two 64-bit rolling
accumulators. -/
def md5 (s : String) : String :=
  String.mk (hexChars 16 (s.data.foldl mixStep 99194853094755497) ++
             hexChars 16 (s.data.foldl mixStep 2971215073))

theorem hexChars_length (d n : Nat) : (hexChars d n).length = d := by
  induction d generalizing n with
  | zero => rfl
  | succ d ih => simp [hexChars, ih]

/-- The digest always has exactly 32 characters. -/
theorem md5_length (s : String) : (md5 s).length = 32 := by
  simp [md5, String.length, hexChars_length]

/-- Any string whose length is not 32 differs from its digest; in
particular an authoritative bcrypt hash (60 characters) is never its own
cache key. -/
theorem md5_ne_of_length_ne (h : String) (hl : h.length ≠ 32) : md5 h ≠ h := by
  intro he
  exact hl (he ▸ md5_length h)

/-- A storage backend as consumed by the caching core: the overridable
private methods of `BcryptCache` (`_get`, `_set`, `_remove`, `_hash`,
`_compare`), each of which may reject. `σ` is the backend's state. -/
structure Backend (σ : Type) where
  bget : String → σ → Except CacheError (Option String) × σ
  bset : String → String → σ → Except CacheError Bool × σ
  bremove : String → σ → Except CacheError Bool × σ
  bhash : String → Except CacheError String
  bcompare : String → String → Except CacheError Bool

namespace BcryptCache

/-- `BcryptCache.prototype.get`: `when(this._get(md5(hash))).catch(warn)`.
The `.catch` handler emits a warning and resolves to `undefined`, so the
resolved value is `Option String` (never a rejection); the `Bool` is the
warned flag. -/
def get (B : Backend σ) (hash : String) (s : σ) : (Option String × Bool) × σ :=
  match B.bget (md5 hash) s with
  | (Except.ok v, s') => ((v, false), s')
  | (Except.error _, s') => ((none, true), s')

/-- `BcryptCache.prototype.set`: rejects missing arguments with a warning
and `false`; otherwise `_hash(token)` then `_set(md5(hash), result)`,
with a final `.catch` that warns and resolves to `undefined` (the catch
handler returns nothing). Resolved value is `Option Bool` (`none` =
`undefined`); the `Bool` is the warned flag. -/
def set (B : Backend σ) (hash token : Option String) (s : σ) :
    (Option Bool × Bool) × σ :=
  match hash, token with
  | some h, some t =>
    (match B.bhash t with
     | Except.error _ => ((none, true), s)
     | Except.ok c =>
       match B.bset (md5 h) c s with
       | (Except.ok b, s') => ((some b, false), s')
       | (Except.error _, s') => ((none, true), s'))
  | _, _ => ((some false, true), s)

/-- `BcryptCache.prototype.remove`: `when(this._remove(md5(hash)))` —
note there is no `.catch`, so a rejection from the backend propagates. -/
def remove (B : Backend σ) (hash : String) (s : σ) :
    Except CacheError Bool × σ :=
  B.bremove (md5 hash) s

/-- `BcryptCache.prototype.compare`: looks up via `get`; a falsy result
(`undefined` or the empty string) sets `needsSave` and substitutes the
original hash as the comparison target; then `_compare(target, token)`;
a `tap` populates the cache via `set` when the comparison resolved
exactly `true` and `needsSave` was set. A rejection from `_compare`
propagates. -/
def compare (B : Backend σ) (hash token : String) (s : σ) :
    Except CacheError Bool × σ :=
  let g := get B hash s
  let target : String :=
    match g.1.1 with
    | none => hash
    | some v => if v = "" then hash else v
  let needsSave : Bool :=
    match g.1.1 with
    | none => true
    | some v => v == ""
  match B.bcompare target token with
  | Except.error e => (Except.error e, g.2)
  | Except.ok r =>
    if r && needsSave then (Except.ok r, (set B (some hash) (some token) g.2).2)
    else (Except.ok r, g.2)

end BcryptCache

/-! ## Association-list helpers for the backing stores

A JS object used as a hash map is modelled as an association list with
the usual first-match lookup; overwriting inserts at the front after
erasing the key, and `delete` erases all bindings of the key. -/

/-- First-match lookup in an association list (JS property read). -/
def lookupKey {β : Type} (c : List (String × β)) (k : String) : Option β :=
  match c with
  | [] => none
  | p :: t => if p.1 = k then some p.2 else lookupKey t k

/-- Erase every binding of `k` (JS `delete obj[k]`). -/
def eraseKey {β : Type} (c : List (String × β)) (k : String) :
    List (String × β) :=
  c.filter (fun p => p.1 != k)

/-- Overwrite binding of `k` with `e` (JS `obj[k] = e`). -/
def setEntry {β : Type} (c : List (String × β)) (k : String) (e : β) :
    List (String × β) :=
  (k, e) :: eraseKey c k

/-- Key membership (lodash `_.has(obj, k)`). -/
def hasKey {β : Type} (c : List (String × β)) (k : String) : Bool :=
  c.any (fun p => p.1 == k)

theorem lookupKey_setEntry_self {β : Type} (c : List (String × β))
    (k : String) (e : β) : lookupKey (setEntry c k e) k = some e := by
  simp [setEntry, lookupKey]

theorem hasKey_eraseKey {β : Type} (c : List (String × β)) (k : String) :
    hasKey (eraseKey c k) k = false := by
  induction c with
  | nil => rfl
  | cons p t ih =>
    by_cases hp : p.1 = k
    · simpa [eraseKey, List.filter_cons, hp] using ih
    · simp [eraseKey, List.filter_cons, hp, hasKey, List.any_cons]

theorem lookupKey_eraseKey_self {β : Type} (c : List (String × β))
    (k : String) : lookupKey (eraseKey c k) k = none := by
  induction c with
  | nil => rfl
  | cons p t ih =>
    by_cases hp : p.1 = k
    · simpa [eraseKey, List.filter_cons, hp] using ih
    · simpa [eraseKey, List.filter_cons, hp, lookupKey] using ih

theorem lookupKey_eraseKey_ne {β : Type} (c : List (String × β))
    (k k' : String) (hne : k' ≠ k) :
    lookupKey (eraseKey c k) k' = lookupKey c k' := by
  induction c with
  | nil => rfl
  | cons p t ih =>
    by_cases hp : p.1 = k
    · simp [eraseKey, List.filter_cons, hp, lookupKey, Ne.symm hne] at ih ⊢
      exact ih
    · by_cases hq : p.1 = k'
      · simp [eraseKey, List.filter_cons, hp, lookupKey, hq, hne]
      · simp [eraseKey, List.filter_cons, hp, lookupKey, hq] at ih ⊢
        exact ih

/-! ## In-process (memory) backend: `lib/memory-cache.js` -/

/-- A cached entry of the memory backend:
`{ value: ..., expiration: Date.now() + ttl }`. -/
structure Entry where
  value : String
  expiration : Nat
deriving DecidableEq, Repr

/-- State of a `MemoryCache` instance: the backing map and
`options.ttl` (milliseconds; the constructor multiplies the `ttl`
option, in seconds, by 1000). -/
structure MemState where
  cache : List (String × Entry)
  ttl : Nat
deriving DecidableEq, Repr

/-- `MemoryCache` constructor: `options.ttl = ttl * 1000`, empty map. -/
def memInit (ttlSeconds : Nat) : MemState :=
  { cache := [], ttl := ttlSeconds * 1000 }

/-- `MemoryCache.prototype._remove`: `delete this.cache[key]; return
!_.has(this.cache, key)`. -/
def mem_remove (k : String) (s : MemState) : Bool × MemState :=
  let c := eraseKey s.cache k
  (!(hasKey c k), { s with cache := c })

/-- `MemoryCache.prototype._get`: on a truthy entry, if
`value.expiration < Date.now()` the source calls the public
`this.remove(key)` — which is `_remove(md5(key))`, re-digesting the
already-digested key — and returns `undefined`; otherwise it refreshes
`value.expiration = Date.now() + this.options.ttl` and returns the
stored value. -/
def mem_get (now : Nat) (k : String) (s : MemState) :
    Option String × MemState :=
  match lookupKey s.cache k with
  | none => (none, s)
  | some e =>
    if e.expiration < now then
      (none, { s with cache := eraseKey s.cache (md5 k) })
    else
      (some e.value,
       { s with cache :=
          setEntry s.cache k { value := e.value, expiration := now + s.ttl } })

/-- `MemoryCache.prototype._set`: stores
`{ value, expiration: Date.now() + ttl }` unconditionally, then returns
`_.has(this.cache, key)`. -/
def mem_set (now : Nat) (k v : String) (s : MemState) : Bool × MemState :=
  let c := setEntry s.cache k { value := v, expiration := now + s.ttl }
  (hasKey c k, { s with cache := c })

/-- The `MemoryCache` instance as a backend for the core: `_hash` is
`md5`, `_compare` dispatches on `hash.length === 32` between md5
equality and the inherited slow bcrypt comparison
`bcrypt.compare(value, hash)` (the external primitive `slow`). -/
def memoryBackend (slow : String → String → Except CacheError Bool)
    (now : Nat) : Backend MemState where
  bget k s := ((Except.ok (mem_get now k s).1), (mem_get now k s).2)
  bset k v s := ((Except.ok (mem_set now k v s).1), (mem_set now k v s).2)
  bremove k s := ((Except.ok (mem_remove k s).1), (mem_remove k s).2)
  bhash v := Except.ok (md5 v)
  bcompare h v := if h.length = 32 then Except.ok (md5 v == h) else slow v h

/-! ## Networked (Redis) backend: `lib/redis-cache.js` -/

/-- A key held by the Redis store, with its native expiry time. -/
structure RedisEntry where
  value : String
  expiresAt : Nat
deriving DecidableEq, Repr

/-- State of a `RedisCache` instance: the store contents, `options.ttl`
(seconds) and `options.prefix` (field `pfx`; default
`bcrypt-cache:`). -/
structure RedisState where
  store : List (String × RedisEntry)
  ttl : Nat
  pfx : String
deriving DecidableEq, Repr

/-- `RedisCache` constructor defaults. -/
def redisInit (ttlSeconds : Nat) : RedisState :=
  { store := [], ttl := ttlSeconds, pfx := "bcrypt-cache:" }

/-- Redis `GET`: a key is visible while `now < expiresAt`. -/
def rLookup (now : Nat) (k : String) (s : RedisState) : Option String :=
  match lookupKey s.store k with
  | some e => if now < e.expiresAt then some e.value else none
  | none => none

/-- Redis `EXPIRE k ttl`: reset the key's expiry to `now + ttl`. -/
def rExpire (now : Nat) (k : String) (s : RedisState) : RedisState :=
  match lookupKey s.store k with
  | some e =>
    { s with store := setEntry s.store k { e with expiresAt := now + s.ttl } }
  | none => s

/-- `RedisCache.prototype._get`: `getAsync(prefix + key)` then, via
`tap`, if the result is truthy, a fire-and-forget
`expireAsync(prefix + key, ttl)` whose own failure is only warned. -/
def r_get (now : Nat) (k : String) (s : RedisState) :
    Option String × RedisState :=
  match rLookup now (s.pfx ++ k) s with
  | some v =>
    if v = "" then (some v, s) else (some v, rExpire now (s.pfx ++ k) s)
  | none => (none, s)

/-- `RedisCache.prototype._set`: `setexAsync(prefix + key, ttl, value)`,
whose acknowledgment (`OK`) is coerced with `Boolean(result)`. -/
def r_set (now : Nat) (k v : String) (s : RedisState) : Bool × RedisState :=
  (true,
   { s with store :=
      setEntry s.store (s.pfx ++ k) { value := v, expiresAt := now + s.ttl } })

/-- `RedisCache.prototype._remove`:
`delAsync(prefix + key).yield(when(true))` — resolves `true` regardless
of whether the key existed. -/
def r_remove (k : String) (s : RedisState) : Bool × RedisState :=
  (true, { s with store := eraseKey s.store (s.pfx ++ k) })

/-- The `RedisCache` instance as a backend for the core: `_hash` is the
external cheap-cost bcrypt hash (`bcrypt.hash(value, 4)`, parameter
`cheap`), `_compare` is the inherited `bcrypt.compare(value, hash)`
(parameter `slow`). -/
def redisBackend (slow : String → String → Except CacheError Bool)
    (cheap : String → Except CacheError String) (now : Nat) :
    Backend RedisState where
  bget k s := ((Except.ok (r_get now k s).1), (r_get now k s).2)
  bset k v s := ((Except.ok (r_set now k v s).1), (r_set now k v s).2)
  bremove k s := ((Except.ok (r_remove k s).1), (r_remove k s).2)
  bhash := cheap
  bcompare h v := slow v h

/-! ## Concrete fixtures used by witnesses and counterexamples -/

/-- The bcrypt hash of the token `token` used throughout the
repository's test suite (60 characters). -/
def tokenHash : String := "$2a$10$o4ezyhBv1b2tOQmHH1kiO.vdeIPLQQcY.1aCtH9VODTK.1/CpyRPa"

/-- An external slow comparison that always accepts. -/
def slowTrue : String → String → Except CacheError Bool :=
  fun _ _ => Except.ok true

/-- An external slow comparison that always rejects the token. -/
def slowFalse : String → String → Except CacheError Bool :=
  fun _ _ => Except.ok false

/-- A custom backend whose every operation rejects, as a stubbed `_get`
does in the test `should verify a key if lookup fails`. -/
def failB : Backend Unit where
  bget _ s := (Except.error ⟨"Connection closed"⟩, s)
  bset _ _ s := (Except.error ⟨"Connection closed"⟩, s)
  bremove _ s := (Except.error ⟨"Connection closed"⟩, s)
  bhash _ := Except.error ⟨"Connection closed"⟩
  bcompare _ _ := Except.ok true

/-- A backend whose write path rejects but whose other operations
succeed, as in the test `should verify if saving key to the cache
fails`. -/
def setFailB : Backend Unit where
  bget _ s := (Except.ok none, s)
  bset _ _ s := (Except.error ⟨"Connection closed"⟩, s)
  bremove _ s := (Except.ok true, s)
  bhash _ := Except.ok ("$2a$04$cheapcheapcheap")
  bcompare _ _ := Except.ok true

/-- A backend whose lookup resolves to the empty string, a falsy value
distinct from `undefined`. -/
def falsyB : Backend Unit where
  bget _ s := (Except.ok (some ""), s)
  bset _ _ s := (Except.ok true, s)
  bremove _ s := (Except.ok true, s)
  bhash _ := Except.ok ("$2a$04$cheapcheapcheap")
  bcompare _ _ := Except.ok true

/-- A backend that records every key it is handed; used to observe which
keys the core sends to the store. -/
def logB : Backend (List String) where
  bget k s := (Except.ok none, s ++ [k])
  bset k _ s := (Except.ok true, s ++ [k])
  bremove k s := (Except.ok true, s ++ [k])
  bhash _ := Except.ok ("$2a$04$cheapcheapcheap")
  bcompare _ _ := Except.ok true

/-! ## Claim theorems -/

/-- Claim C4: for every hash `h` (in authoritative bcrypt format, hence
of length 60 ≠ 32, while the digest always has length 32), the cache key
handed to the backend by `get`, `set` and `remove` is `md5 h`, and that
key never equals `h` itself, so the backend store never sees the raw
authoritative hash as a lookup key. -/
theorem cache_key_is_digest_not_hash :
    ∀ (h t : String), h.length ≠ 32 →
      md5 h ≠ h
      ∧ (BcryptCache.get logB h []).2 = [md5 h]
      ∧ (BcryptCache.set logB (some h) (some t) []).2 = [md5 h]
      ∧ (BcryptCache.remove logB h []).2 = [md5 h] := by
  intro h t hl
  refine ⟨md5_ne_of_length_ne h hl, ?_, ?_, ?_⟩ <;>
    simp [BcryptCache.get, BcryptCache.set, BcryptCache.remove, logB]

/-- Witness for C4 at the test suite's bcrypt hash. -/
theorem cache_key_is_digest_not_hash_witness :
    tokenHash.length ≠ 32
    ∧ (md5 tokenHash ≠ tokenHash
       ∧ (BcryptCache.get logB tokenHash []).2 = [md5 tokenHash]
       ∧ (BcryptCache.set logB (some tokenHash) (some ("token")) []).2 =
           [md5 tokenHash]
       ∧ (BcryptCache.remove logB tokenHash []).2 = [md5 tokenHash]) :=
  ⟨by decide, cache_key_is_digest_not_hash tokenHash ("token") (by decide)⟩

/-- Claim C7: for every hash, if the backend `_get` rejects, `get`
resolves (rather than rejecting) with the warned flag set and an absent
value. -/
theorem get_backend_failure_returns_absent :
    ∀ (σ : Type) (B : Backend σ) (h : String) (s s' : σ) (e : CacheError),
      B.bget (md5 h) s = (Except.error e, s') →
      BcryptCache.get B h s = ((none, true), s') := by
  intro σ B h s s' e hb
  simp [BcryptCache.get, hb]

/-- Witness for C7 on a backend whose lookup always rejects. -/
theorem get_backend_failure_returns_absent_witness :
    failB.bget (md5 ("h1")) () = (Except.error ⟨"Connection closed"⟩, ())
    ∧ BcryptCache.get failB ("h1") () = ((none, true), ()) :=
  ⟨rfl, get_backend_failure_returns_absent Unit failB ("h1") () ()
    ⟨"Connection closed"⟩ rfl⟩

/-- Claim C9: removal is idempotent in both backends: `_remove` returns
true whether or not the key exists (the state is universally
quantified, so in particular for absent keys), and removing twice in a
row returns true both times; likewise for the public `remove` built on
either backend. -/
theorem remove_idempotent_returns_true :
    (∀ (k : String) (s : MemState),
       (mem_remove k s).1 = true
       ∧ (mem_remove k (mem_remove k s).2).1 = true)
    ∧ (∀ (k : String) (s : RedisState),
       (r_remove k s).1 = true
       ∧ (r_remove k (r_remove k s).2).1 = true)
    ∧ (∀ (slow : String → String → Except CacheError Bool) (now : Nat)
         (h : String) (s : MemState),
       (BcryptCache.remove (memoryBackend slow now) h s).1 = Except.ok true
       ∧ (BcryptCache.remove (memoryBackend slow now) h
           (BcryptCache.remove (memoryBackend slow now) h s).2).1 =
             Except.ok true)
    ∧ (∀ (slow : String → String → Except CacheError Bool)
         (cheap : String → Except CacheError String) (now : Nat)
         (h : String) (s : RedisState),
       (BcryptCache.remove (redisBackend slow cheap now) h s).1 =
           Except.ok true
       ∧ (BcryptCache.remove (redisBackend slow cheap now) h
           (BcryptCache.remove (redisBackend slow cheap now) h s).2).1 =
             Except.ok true) := by
  refine ⟨?_, ?_, ?_, ?_⟩
  · intro k s
    constructor <;> simp [mem_remove, hasKey_eraseKey]
  · intro k s
    constructor <;> simp [r_remove]
  · intro slow now h s
    constructor <;>
      simp [BcryptCache.remove, memoryBackend, mem_remove, hasKey_eraseKey]
  · intro slow cheap now h s
    constructor <;> simp [BcryptCache.remove, redisBackend, r_remove]

/-- Claim C1: on the in-process cache, for an authoritative hash `h`
(bcrypt format, so not 32 characters) with no cache entry under its
derived key, if the authoritative comparison of `t` against `h` resolves
false then `compare h t` resolves false, the state is completely
unchanged (no cache entry written), and a subsequent `get h` (at any
later time) still reports absence. -/
theorem compare_auth_fail_returns_false_no_write :
    ∀ (slow : String → String → Except CacheError Bool) (now now2 : Nat)
      (h t : String) (s : MemState),
      h.length ≠ 32 →
      lookupKey s.cache (md5 h) = none →
      slow t h = Except.ok false →
      (BcryptCache.compare (memoryBackend slow now) h t s).1 = Except.ok false
      ∧ (BcryptCache.compare (memoryBackend slow now) h t s).2 = s
      ∧ (BcryptCache.get (memoryBackend slow now2) h
          ((BcryptCache.compare (memoryBackend slow now) h t s).2)).1.1 =
            none := by
  intro slow now now2 h t s hlen hlook hslow
  have hg : BcryptCache.get (memoryBackend slow now) h s = ((none, false), s) := by
    simp [BcryptCache.get, memoryBackend, mem_get, hlook]
  have hbc : (memoryBackend slow now).bcompare h t = Except.ok false := by
    simp [memoryBackend, hlen, hslow]
  have hc : BcryptCache.compare (memoryBackend slow now) h t s =
      (Except.ok false, s) := by
    simp [BcryptCache.compare, hg, hbc]
  have hg2 : BcryptCache.get (memoryBackend slow now2) h s = ((none, false), s) := by
    simp [BcryptCache.get, memoryBackend, mem_get, hlook]
  rw [hc, hg2]
  exact ⟨rfl, rfl, rfl⟩

/-- Witness for C1: empty memory cache, a comparison that rejects the
token, the test suite's bcrypt hash. -/
theorem compare_auth_fail_returns_false_no_write_witness :
    tokenHash.length ≠ 32
    ∧ lookupKey (memInit 600).cache (md5 tokenHash) = none
    ∧ slowFalse ("token") tokenHash = Except.ok false
    ∧ ((BcryptCache.compare (memoryBackend slowFalse 0) tokenHash ("token")
          (memInit 600)).1 = Except.ok false
       ∧ (BcryptCache.compare (memoryBackend slowFalse 0) tokenHash ("token")
            (memInit 600)).2 = memInit 600
       ∧ (BcryptCache.get (memoryBackend slowFalse 99) tokenHash
            ((BcryptCache.compare (memoryBackend slowFalse 0) tokenHash
              ("token") (memInit 600)).2)).1.1 = none) :=
  ⟨by decide, rfl, rfl,
   compare_auth_fail_returns_false_no_write slowFalse 0 99 tokenHash ("token")
     (memInit 600) (by decide) rfl rfl⟩

/-- Claim C2: whenever the lookup inside `compare` yields no cached
value — a miss, an absent value, or a lookup failure of any kind, all of
which surface as an absent `get` result — `compare` compares the token
against the original hash with the instance's comparison strategy and
returns its boolean result; on the in-process backend with an
authoritative-format hash (length ≠ 32) that strategy is exactly the
external slow bcrypt comparison `slow t h`. -/
theorem compare_miss_uses_original_hash :
    (∀ (σ : Type) (B : Backend σ) (h t : String) (s : σ),
       (BcryptCache.get B h s).1.1 = none →
       (BcryptCache.compare B h t s).1 = B.bcompare h t)
    ∧ (∀ (slow : String → String → Except CacheError Bool) (now : Nat)
         (h t : String) (s : MemState),
       h.length ≠ 32 →
       lookupKey s.cache (md5 h) = none →
       (BcryptCache.compare (memoryBackend slow now) h t s).1 = slow t h) := by
  constructor
  · intro σ B h t s hnone
    simp only [BcryptCache.compare, hnone]
    cases hbc : B.bcompare h t with
    | error e => simp
    | ok r => cases r <;> simp
  · intro slow now h t s hlen hlook
    have hg : BcryptCache.get (memoryBackend slow now) h s =
        ((none, false), s) := by
      simp [BcryptCache.get, memoryBackend, mem_get, hlook]
    simp only [BcryptCache.compare, hg]
    cases hbc : (memoryBackend slow now).bcompare h t with
    | error e =>
      have : slow t h = Except.error e := by
        simpa [memoryBackend, hlen] using hbc
      simp [this]
    | ok r =>
      have : slow t h = Except.ok r := by
        simpa [memoryBackend, hlen] using hbc
      cases r <;> simp [this]

/-- Witness for C2: the parametric part on a backend whose lookup
rejects (lookup failure), the in-process part on an empty cache. -/
theorem compare_miss_uses_original_hash_witness :
    ((BcryptCache.get failB ("h1") ()).1.1 = none
     ∧ (BcryptCache.compare failB ("h1") ("t1") ()).1 =
         failB.bcompare ("h1") ("t1"))
    ∧ (tokenHash.length ≠ 32
       ∧ lookupKey (memInit 600).cache (md5 tokenHash) = none
       ∧ (BcryptCache.compare (memoryBackend slowTrue 0) tokenHash ("token")
            (memInit 600)).1 = slowTrue ("token") tokenHash) :=
  ⟨⟨rfl, compare_miss_uses_original_hash.1 Unit failB ("h1") ("t1") () rfl⟩,
   by decide, rfl,
   compare_miss_uses_original_hash.2 slowTrue 0 tokenHash ("token")
     (memInit 600) (by decide) rfl⟩

/-- Claim C10: a falsy cached value that is not `undefined` — the empty
string — is treated by `compare` exactly like a miss: the comparison
target is the original hash, the returned result is that comparison's
result, and when it resolves true the cache is populated afterwards via
`set hash token` from the post-lookup state. -/
theorem compare_falsy_cached_value_is_miss :
    ∀ (σ : Type) (B : Backend σ) (h t : String) (s s' : σ),
      B.bget (md5 h) s = (Except.ok (some ""), s') →
      (BcryptCache.compare B h t s).1 = B.bcompare h t
      ∧ (B.bcompare h t = Except.ok true →
          (BcryptCache.compare B h t s).2 =
            (BcryptCache.set B (some h) (some t) s').2) := by
  intro σ B h t s s' hb
  have hg : BcryptCache.get B h s = ((some "", false), s') := by
    simp [BcryptCache.get, hb]
  constructor
  · simp only [BcryptCache.compare, hg]
    cases hbc : B.bcompare h t with
    | error e => simp [hbc]
    | ok r => cases r <;> simp [hbc]
  · intro htrue
    simp [BcryptCache.compare, hg, htrue]

/-- Witness for C10 on a backend whose lookup resolves to the empty
string. -/
theorem compare_falsy_cached_value_is_miss_witness :
    falsyB.bget (md5 ("h1")) () = (Except.ok (some ""), ())
    ∧ ((BcryptCache.compare falsyB ("h1") ("t1") ()).1 =
         falsyB.bcompare ("h1") ("t1")
       ∧ (falsyB.bcompare ("h1") ("t1") = Except.ok true →
           (BcryptCache.compare falsyB ("h1") ("t1") ()).2 =
             (BcryptCache.set falsyB (some ("h1")) (some ("t1")) ()).2)) :=
  ⟨rfl, compare_falsy_cached_value_is_miss Unit falsyB ("h1") ("t1") () () rfl⟩

/-- Counterexample to claim C8 as stated: with a backend whose `_set`
rejects, `set` resolves — but to `undefined` (the final `.catch` handler
only emits the warning and returns nothing), not to any boolean, so the
caller does not receive a boolean outcome. -/
theorem set_backend_failure_no_boolean_counterexample :
    (BcryptCache.set setFailB (some ("h1")) (some ("t1")) ()).1.1 = none
    ∧ ¬ ∃ b : Bool,
        (BcryptCache.set setFailB (some ("h1")) (some ("t1")) ()).1.1 =
          some b := by
  refine ⟨rfl, ?_⟩
  rintro ⟨b, hb⟩
  simp [BcryptCache.set, setFailB] at hb

/-- Claim C8 (amended): for every non-null hash and token, if the cheap
re-hash step or the backend `_set` fails during `set`, the failure is
caught and reported as a warning and the call still resolves without an
exception — to `undefined` (a falsy non-boolean), not to a boolean. -/
theorem set_backend_failure_resolves_undefined :
    (∀ (σ : Type) (B : Backend σ) (h t : String) (s : σ) (e : CacheError),
       B.bhash t = Except.error e →
       BcryptCache.set B (some h) (some t) s = ((none, true), s))
    ∧ (∀ (σ : Type) (B : Backend σ) (h t c : String) (s s' : σ)
         (e : CacheError),
       B.bhash t = Except.ok c →
       B.bset (md5 h) c s = (Except.error e, s') →
       BcryptCache.set B (some h) (some t) s = ((none, true), s')) := by
  constructor
  · intro σ B h t s e hh
    simp [BcryptCache.set, hh]
  · intro σ B h t c s s' e hh hs
    simp [BcryptCache.set, hh, hs]

/-- Witness for amended C8: the re-hash failure on `failB`, the write
failure on `setFailB`. -/
theorem set_backend_failure_resolves_undefined_witness :
    (failB.bhash ("t1") = Except.error ⟨"Connection closed"⟩
     ∧ BcryptCache.set failB (some ("h1")) (some ("t1")) () =
         ((none, true), ()))
    ∧ (setFailB.bhash ("t1") = Except.ok ("$2a$04$cheapcheapcheap")
       ∧ setFailB.bset (md5 ("h1")) ("$2a$04$cheapcheapcheap") () =
           (Except.error ⟨"Connection closed"⟩, ())
       ∧ BcryptCache.set setFailB (some ("h1")) (some ("t1")) () =
           ((none, true), ())) :=
  ⟨⟨rfl, set_backend_failure_resolves_undefined.1 Unit failB ("h1") ("t1") ()
      ⟨"Connection closed"⟩ rfl⟩,
   rfl, rfl,
   set_backend_failure_resolves_undefined.2 Unit setFailB ("h1") ("t1")
     ("$2a$04$cheapcheapcheap") () () ⟨"Connection closed"⟩ rfl rfl⟩

/-- Counterexample to claim C3 as stated: `remove` does not absorb
backend failures — with a backend whose `_remove` rejects, `remove`
rejects with that error instead of resolving (the source has no `.catch`
on `this._remove`). -/
theorem remove_backend_failure_rejects_counterexample :
    (BcryptCache.remove failB ("h1") ()).1 =
      Except.error ⟨"Connection closed"⟩ := rfl

/-- Claim C3 (amended): `get`, `set` and `compare` absorb backend
failures — a rejecting `_get` or `_set` is caught, reported via the
warned flag, and the operation still resolves — but `remove` does not:
a rejection from the backend `_remove` propagates to the caller
unchanged. -/
theorem backend_failure_absorption :
    (∀ (σ : Type) (B : Backend σ) (h : String) (s s' : σ) (e : CacheError),
       B.bget (md5 h) s = (Except.error e, s') →
       BcryptCache.get B h s = ((none, true), s'))
    ∧ (∀ (σ : Type) (B : Backend σ) (h t c : String) (s s' : σ)
         (e : CacheError),
       B.bhash t = Except.ok c →
       B.bset (md5 h) c s = (Except.error e, s') →
       BcryptCache.set B (some h) (some t) s = ((none, true), s'))
    ∧ (∀ (σ : Type) (B : Backend σ) (h t : String) (s s' : σ)
         (e : CacheError) (r : Bool),
       B.bget (md5 h) s = (Except.error e, s') →
       B.bcompare h t = Except.ok r →
       (BcryptCache.compare B h t s).1 = Except.ok r)
    ∧ (∀ (σ : Type) (B : Backend σ) (h : String) (s s' : σ) (e : CacheError),
       B.bremove (md5 h) s = (Except.error e, s') →
       BcryptCache.remove B h s = (Except.error e, s')) := by
  refine ⟨?_, ?_, ?_, ?_⟩
  · intro σ B h s s' e hb
    simp [BcryptCache.get, hb]
  · intro σ B h t c s s' e hh hs
    simp [BcryptCache.set, hh, hs]
  · intro σ B h t s s' e r hb hbc
    have hg : BcryptCache.get B h s = ((none, true), s') := by
      simp [BcryptCache.get, hb]
    simp only [BcryptCache.compare, hg]
    cases r <;> simp [hbc]
  · intro σ B h s s' e hb
    simp [BcryptCache.remove, hb]

/-- Witness for amended C3 on the all-failing backend (and `setFailB`
for the write path). -/
theorem backend_failure_absorption_witness :
    (failB.bget (md5 ("h2")) () = (Except.error ⟨"Connection closed"⟩, ())
     ∧ BcryptCache.get failB ("h2") () = ((none, true), ()))
    ∧ (BcryptCache.set setFailB (some ("h2")) (some ("t2")) () =
         ((none, true), ()))
    ∧ ((BcryptCache.compare failB ("h2") ("t2") ()).1 = Except.ok true)
    ∧ (BcryptCache.remove failB ("h2") () =
         (Except.error ⟨"Connection closed"⟩, ())) :=
  ⟨⟨rfl, backend_failure_absorption.1 Unit failB ("h2") () ()
      ⟨"Connection closed"⟩ rfl⟩,
   backend_failure_absorption.2.1 Unit setFailB ("h2") ("t2")
     ("$2a$04$cheapcheapcheap") () () ⟨"Connection closed"⟩ rfl rfl,
   backend_failure_absorption.2.2.1 Unit failB ("h2") ("t2") () ()
     ⟨"Connection closed"⟩ true rfl rfl,
   backend_failure_absorption.2.2.2 Unit failB ("h2") () ()
     ⟨"Connection closed"⟩ rfl⟩

/-- A cache key as the memory backend actually receives one: the digest
of an authoritative hash (32 characters). -/
def c5key : String := md5 ("c5hash")

/-- An entry that has long expired by `now = 2000`. -/
def c5entry : Entry := { value := "v0", expiration := 5 }

/-- A memory cache holding only the expired entry. -/
def c5state : MemState := { cache := [(c5key, c5entry)], ttl := 1000 }

set_option maxRecDepth 10000 in
/-- Claim C5 (code bug, evaluated at the failing input): `_get` on an
expired entry reports absence, but the entry is still present in the
backing map afterwards — the source calls the public `this.remove(key)`,
which digests the already-digested key again and therefore deletes
`cache[md5(key)]` instead of `cache[key]`. -/
theorem expired_get_reports_absent_but_leaves_entry :
    (mem_get 2000 c5key c5state).1 = none
    ∧ lookupKey ((mem_get 2000 c5key c5state).2).cache c5key =
        some c5entry := by
  decide

/-- A memory cache with one live entry, read before its expiry. -/
def memFix : MemState :=
  { cache := [(("k1"), { value := "v1", expiration := 1000 })], ttl := 1000 }

/-- The live entry held by `memFix`. -/
def memEntryFix : Entry := { value := "v1", expiration := 1000 }

/-- A Redis store with one live entry under the default key namespace. -/
def redisFix : RedisState :=
  { store := [(("bcrypt-cache:k1"), { value := "w1", expiresAt := 1000 })],
    ttl := 300, pfx := "bcrypt-cache:" }

/-- The live entry held by `redisFix`. -/
def redisEntryFix : RedisEntry := { value := "w1", expiresAt := 1000 }

/-- Claim C6: sliding expiration in both backends — a read that finds an
entry unexpired resets its lifetime to exactly `ttl` from the current
time (memory `_get` re-stamps `expiration = now + ttl`; Redis `_get`
issues `expire(key, ttl)`), and a write stamps exactly `ttl` from the
time of the write, never more. -/
theorem sliding_expiration :
    (∀ (now : Nat) (k : String) (s : MemState) (e : Entry),
       lookupKey s.cache k = some e → ¬ e.expiration < now →
       (mem_get now k s).1 = some e.value
       ∧ lookupKey ((mem_get now k s).2).cache k =
           some { value := e.value, expiration := now + s.ttl })
    ∧ (∀ (now : Nat) (k v : String) (s : MemState),
       lookupKey ((mem_set now k v s).2).cache k =
         some { value := v, expiration := now + s.ttl })
    ∧ (∀ (now : Nat) (k : String) (s : RedisState) (e : RedisEntry),
       lookupKey s.store (s.pfx ++ k) = some e → now < e.expiresAt →
       e.value ≠ "" →
       (r_get now k s).1 = some e.value
       ∧ lookupKey ((r_get now k s).2).store (s.pfx ++ k) =
           some { value := e.value, expiresAt := now + s.ttl })
    ∧ (∀ (now : Nat) (k v : String) (s : RedisState),
       lookupKey ((r_set now k v s).2).store (s.pfx ++ k) =
         some { value := v, expiresAt := now + s.ttl }) := by
  refine ⟨?_, ?_, ?_, ?_⟩
  · intro now k s e hlook hexp
    constructor
    · simp [mem_get, hlook, hexp]
    · simp [mem_get, hlook, hexp, lookupKey_setEntry_self]
  · intro now k v s
    simp [mem_set, lookupKey_setEntry_self]
  · intro now k s e hlook hlive hne
    constructor
    · simp [r_get, rLookup, hlook, hlive, hne]
    · simp [r_get, rLookup, rExpire, hlook, hlive, hne,
        lookupKey_setEntry_self]
  · intro now k v s
    simp [r_set, lookupKey_setEntry_self]

/-- Witness for C6 at `now = 900` on both fixture stores. -/
theorem sliding_expiration_witness :
    (lookupKey memFix.cache ("k1") = some memEntryFix
     ∧ ¬ memEntryFix.expiration < 900
     ∧ ((mem_get 900 ("k1") memFix).1 = some memEntryFix.value
        ∧ lookupKey ((mem_get 900 ("k1") memFix).2).cache ("k1") =
            some { value := memEntryFix.value, expiration := 900 + memFix.ttl }))
    ∧ (lookupKey ((mem_set 900 ("k1") ("v2") memFix).2).cache ("k1") =
         some { value := "v2", expiration := 900 + memFix.ttl })
    ∧ (lookupKey redisFix.store (redisFix.pfx ++ ("k1")) = some redisEntryFix
       ∧ 900 < redisEntryFix.expiresAt
       ∧ redisEntryFix.value ≠ ""
       ∧ ((r_get 900 ("k1") redisFix).1 = some redisEntryFix.value
          ∧ lookupKey ((r_get 900 ("k1") redisFix).2).store
              (redisFix.pfx ++ ("k1")) =
              some { value := redisEntryFix.value,
                     expiresAt := 900 + redisFix.ttl }))
    ∧ (lookupKey ((r_set 900 ("k1") ("w2") redisFix).2).store
         (redisFix.pfx ++ ("k1")) =
         some { value := "w2", expiresAt := 900 + redisFix.ttl }) :=
  ⟨⟨rfl, by decide,
    sliding_expiration.1 900 ("k1") memFix memEntryFix rfl (by decide)⟩,
   sliding_expiration.2.1 900 ("k1") ("v2") memFix,
   ⟨rfl, by decide, by decide,
    sliding_expiration.2.2.1 900 ("k1") redisFix redisEntryFix rfl
      (by decide) (by decide)⟩,
   sliding_expiration.2.2.2 900 ("k1") ("w2") redisFix⟩
